/-
  Verification of the convex-sveltekit live-query cache and SSR transport
  bridge, as a shallow embedding of the reactive modules
  `src/lib/query.svelte.ts`, `src/lib/command.svelte.ts` and
  `src/lib/user.svelte.ts`.

  Modelling conventions:
  * A JavaScript value is a `JSVal`; `undefined` is represented by
    `Option JSVal = none`, and an `Error` instance by the `JSVal.verr`
    constructor (the code only ever tests values with `instanceof Error`).
  * Canonical arguments are represented by their canonical JSON encoding
    (a `String`): per the source, two argument objects are interchangeable
    exactly when `JSON.stringify(convexToJson(·))` agrees, and the code
    only consumes args through that equality and as a subscription key.
  * Svelte `$state` cells become fields of an explicit state record; each
    `$derived` becomes a pure function of the state plus the currently
    resolved args; each mutation site (`$effect` body, channel callback,
    `set`, `withOverride`, `release`) becomes a state-transition function.
  * The external `ConvexClient` singleton is a `ClientEnv`: its `disabled`
    flag and its synchronous cache lookup `localQueryResult` (§6 of the
    spec: the SubscriptionChannel collaborator).
-/
import Mathlib

namespace ConvexSvelteKit

/-- A JavaScript runtime value, restricted to what the embedded code ever
inspects: truthiness, `instanceof Error`, and strict equality on the image
URL string. `undefined` is `Option.none` at use sites, `verr` is an
`Error` instance (the only class the code tests with `instanceof Error`);
query results the code does not look into are represented by any of these
constructors. -/
inductive JSVal where
  | vnull : JSVal
  | vbool : Bool → JSVal
  | vnum : Int → JSVal
  | vstr : String → JSVal
  | verr : String → JSVal
  deriving DecidableEq, Repr

/-- JavaScript truthiness of a possibly-`undefined` value: `undefined`,
`null`, `false`, `0` and `""` are falsy; arrays and `Error` objects are
truthy. -/
def truthy : Option JSVal → Bool
  | none => false
  | some .vnull => false
  | some (.vbool b) => b
  | some (.vnum n) => n != 0
  | some (.vstr s) => s != ""
  | some (.verr _) => true

/-- `value instanceof Error` for a possibly-`undefined` value. -/
def isErrorVal : Option JSVal → Bool
  | some (.verr _) => true
  | _ => false

/-- The result of `parseArgs`: either the `SKIP` sentinel or a canonical
argument snapshot (identified with its canonical JSON encoding). -/
inductive ArgsVal where
  | skip : ArgsVal
  | args : String → ArgsVal
  deriving DecidableEq, Repr

/-- `jsonEqualArgs` from query.svelte.ts: equality of the canonical JSON
encodings, which on our representation is string equality. -/
def jsonEqualArgs (a b : String) : Bool := a == b

/-- `argsKeyEqual` from query.svelte.ts: SKIP equals only SKIP, and two
non-SKIP argument snapshots are equal iff `jsonEqualArgs` holds. -/
def argsKeyEqual : ArgsVal → ArgsVal → Bool
  | .skip, .skip => true
  | .skip, .args _ => false
  | .args _, .skip => false
  | .args a, .args b => jsonEqualArgs a b

/-- The options record of `convexQuery` after `parseOptions`:
`initialData?` and `keepPreviousData?`. -/
structure QueryOptions where
  initialData : Option JSVal
  keepPreviousData : Bool
  deriving DecidableEq, Repr

/-- The external ConvexClient singleton as the code consumes it: the
`disabled` flag and the synchronous cache lookup
`client.client.localQueryResult(name, args)` (`none` = `undefined`). -/
structure ClientEnv where
  disabled : Bool
  localQueryResult : String → Option JSVal

/-- The `$state` record of `convexQuery` (query.svelte.ts lines 102-118). -/
structure QueryState where
  result : Option JSVal
  lastResult : Option JSVal
  argsForLastResult : Option ArgsVal
  haveArgsEverChanged : Bool
  manualOverride : Option JSVal
  hasManualOverride : Bool
  refreshCounter : Nat
  deriving Repr

/-- Initial `$state` of `convexQuery`: `result` starts as
`parseOptions(options).initialData`, everything else empty. -/
def initQueryState (opts : QueryOptions) : QueryState :=
  { result := opts.initialData
    lastResult := none
    argsForLastResult := none
    haveArgsEverChanged := false
    manualOverride := none
    hasManualOverride := false
    refreshCounter := 0 }

/-- Synchronous part of the subscription `$effect` (lines 121-152) when the
current args resolve to `SKIP`: clear `result`, record `SKIP` as the args
of the last result, and open no channel. For non-SKIP args the effect only
opens the subscription and changes no state synchronously. -/
def effectRun (cur : ArgsVal) (s : QueryState) : QueryState :=
  match cur with
  | .skip => { s with result := none, argsForLastResult := some .skip }
  | .args _ => s

/-- The success callback handed to `client.onUpdate` (lines 135-142),
closed over the subscription's args `a`: store the (cloned) server value,
remember the args, retain it as `lastResult`, clear the manual override. -/
def onDataCallback (a : String) (v : JSVal) (s : QueryState) : QueryState :=
  { s with
    result := some v
    argsForLastResult := some (.args a)
    lastResult := some v
    hasManualOverride := false }

/-- The error callback handed to `client.onUpdate` (lines 143-148): same,
with the `Error` object as the stored value. -/
def onErrorCallback (a : String) (msg : String) (s : QueryState) : QueryState :=
  { s with
    result := some (.verr msg)
    argsForLastResult := some (.args a)
    lastResult := some (.verr msg)
    hasManualOverride := false }

/-- `set(value)` (lines 268-271): unconditionally install a manual
override. -/
def setValue (v : JSVal) (s : QueryState) : QueryState :=
  { s with manualOverride := some v, hasManualOverride := true }

/-- The `release` closure returned by `withOverride` (lines 288-290). -/
def releaseOverride (s : QueryState) : QueryState :=
  { s with hasManualOverride := false }

/-- The args-change tracking `$effect` (lines 172-185): the first time the
resolved args differ from the initial args, latch `haveArgsEverChanged`
and, when `initialData` was supplied, retroactively record the initial
args/data as the last result. -/
def argsChangeEffect (opts : QueryOptions) (initialArgs cur : ArgsVal)
    (s : QueryState) : QueryState :=
  if !s.haveArgsEverChanged && !argsKeyEqual initialArgs cur then
    let s1 := { s with haveArgsEverChanged := true }
    if opts.initialData ≠ none then
      { s1 with argsForLastResult := some initialArgs, lastResult := opts.initialData }
    else s1
  else s

/-- `isSkipped` derived (line 157). -/
def isSkipped (cur : ArgsVal) : Bool := cur == .skip

/-- `sameArgsAsLastResult` derived (lines 159-167): the last result's args
are defined, neither side is SKIP, and the canonical encodings agree. -/
def sameArgsAsLastResult (s : QueryState) (cur : ArgsVal) : Bool :=
  match s.argsForLastResult, cur with
  | some (.args a), .args b => jsonEqualArgs a b
  | _, _ => false

/-- `staleAllowed` derived (line 169): `!!(keepPreviousData &&
state.lastResult)` — note JS truthiness of `lastResult`. -/
def staleAllowed (opts : QueryOptions) (s : QueryState) : Bool :=
  opts.keepPreviousData && truthy s.lastResult

/-- `syncResult` derived (lines 188-212): `undefined` when skipped; the
reactive `state.result` while the `initialData` shortcut is active
(truthy `initialData` and args never changed); otherwise the client's
synchronous cache lookup, or `undefined` when the client is disabled. -/
def syncResult (env : ClientEnv) (opts : QueryOptions) (s : QueryState)
    (cur : ArgsVal) : Option JSVal :=
  match cur with
  | .skip => none
  | .args a =>
    if truthy opts.initialData && !s.haveArgsEverChanged then s.result
    else if env.disabled then none
    else env.localQueryResult a

/-- `resolvedResult` derived (lines 214-217): manual override first, then
the sync result, then — if staleness is allowed — the retained last
result, else `undefined`. -/
def resolvedResult (env : ClientEnv) (opts : QueryOptions) (s : QueryState)
    (cur : ArgsVal) : Option JSVal :=
  if s.hasManualOverride then s.manualOverride
  else match syncResult env opts s cur with
    | some v => some v
    | none => if staleAllowed opts s then s.lastResult else none

/-- `isStale` derived (lines 219-225). -/
def isStaleDerived (env : ClientEnv) (opts : QueryOptions) (s : QueryState)
    (cur : ArgsVal) : Bool :=
  !isSkipped cur
    && syncResult env opts s cur == none
    && staleAllowed opts s
    && !sameArgsAsLastResult s cur
    && resolvedResult env opts s cur != none

/-- `data` derived (lines 227-230): the resolved result unless it is an
`Error` instance. -/
def dataDerived (env : ClientEnv) (opts : QueryOptions) (s : QueryState)
    (cur : ArgsVal) : Option JSVal :=
  if isErrorVal (resolvedResult env opts s cur) then none
  else resolvedResult env opts s cur

/-- `error` derived (lines 232-235): the resolved result when it is an
`Error` instance. -/
def errorDerived (env : ClientEnv) (opts : QueryOptions) (s : QueryState)
    (cur : ArgsVal) : Option JSVal :=
  if isErrorVal (resolvedResult env opts s cur) then resolvedResult env opts s cur
  else none

/-- The public `data` / `current` getter (lines 243-245, 257-259). -/
def dataGet (env : ClientEnv) (opts : QueryOptions) (s : QueryState)
    (cur : ArgsVal) : Option JSVal :=
  dataDerived env opts s cur

/-- The public `error` getter (lines 249-251). -/
def errorGet (env : ClientEnv) (opts : QueryOptions) (s : QueryState)
    (cur : ArgsVal) : Option JSVal :=
  errorDerived env opts s cur

/-- The public `isLoading` / `loading` getter (lines 246-248, 260-262):
false when skipped, else true iff both `error` and `data` are
`undefined`. -/
def loadingGet (env : ClientEnv) (opts : QueryOptions) (s : QueryState)
    (cur : ArgsVal) : Bool :=
  if isSkipped cur then false
  else errorGet env opts s cur == none && dataGet env opts s cur == none

/-- The public `isStale` getter (lines 252-254): false when skipped, else
the `isStale` derived. -/
def isStaleGet (env : ClientEnv) (opts : QueryOptions) (s : QueryState)
    (cur : ArgsVal) : Bool :=
  if isSkipped cur then false else isStaleDerived env opts s cur

/-- `withOverride(update)` (lines 277-292): when the currently displayed
`data` is defined, install `update(data)` as the override; always return
a release token (modelled by `releaseOverride`). -/
def withOverrideApply (env : ClientEnv) (opts : QueryOptions)
    (update : JSVal → JSVal) (cur : ArgsVal) (s : QueryState) : QueryState :=
  match dataGet env opts s cur with
  | some d => { s with manualOverride := some (update d), hasManualOverride := true }
  | none => s

/-! ## Detached queries (query.svelte.ts lines 305-379)

`createDetachedQuery` owns four free-standing `$state` cells (`data`,
`error`, `manualOverride`, `hasManualOverride`) and subscribes exactly
once at construction when the client is not disabled. -/

/-- The `$state` cells of a detached query (lines 314-317). -/
structure DetachedState where
  data : Option JSVal
  error : Option JSVal
  manualOverride : Option JSVal
  hasManualOverride : Bool
  deriving DecidableEq, Repr

/-- A detached query view: its subscription key (function name and
canonical args), its state cells, and whether `client.onUpdate` was
actually called at construction (line 320: only when `!client.disabled`). -/
structure DetachedView where
  refName : String
  args : String
  st : DetachedState
  subscribed : Bool
  deriving DecidableEq, Repr

/-- `createDetachedQuery(query, args, initialData)` (lines 305-333):
seed `data` with `initialData`, leave `error`/override empty, and open
the channel subscription iff the client is not disabled. -/
def createDetachedQuery (env : ClientEnv) (refName args : String)
    (initialData : Option JSVal) : DetachedView :=
  { refName := refName
    args := args
    st := { data := initialData, error := none
            manualOverride := none, hasManualOverride := false }
    subscribed := !env.disabled }

/-- A single delivery on the detached query's channel: a success value or
an error. -/
inductive ChanEvent where
  | success : JSVal → ChanEvent
  | failure : String → ChanEvent
  deriving DecidableEq, Repr

/-- The detached query's channel callbacks (lines 324-331): a success
stores the (cloned) result in `data` and clears the override — it does
not touch `error`; an error stores into `error` and clears the override —
it does not touch `data`. -/
def detachedStep (s : DetachedState) : ChanEvent → DetachedState
  | .success v => { s with data := some v, hasManualOverride := false }
  | .failure m => { s with error := some (.verr m), hasManualOverride := false }

/-- Channel deliveries reach the callbacks only when the subscription was
opened at construction; a view built with a disabled client never
receives any. -/
def detachedDeliver (v : DetachedView) (e : ChanEvent) : DetachedView :=
  if v.subscribed then { v with st := detachedStep v.st e } else v

/-- Deliver a whole sequence of channel events, oldest first. -/
def detachedDeliverAll (v : DetachedView) (es : List ChanEvent) : DetachedView :=
  es.foldl detachedDeliver v

/-- The detached `data` / `current` getter (lines 336-339): the manual
override when installed, else the raw `data` cell. -/
def detachedDataGet (s : DetachedState) : Option JSVal :=
  if s.hasManualOverride then s.manualOverride else s.data

/-- The detached `error` getter (lines 343-345). -/
def detachedErrorGet (s : DetachedState) : Option JSVal := s.error

/-- The detached `isLoading` / `loading` getter (lines 340-342): both raw
cells `undefined`. -/
def detachedLoadingGet (s : DetachedState) : Bool :=
  s.error.isNone && s.data.isNone

/-- The detached `set(value)` (lines 358-361). -/
def detachedSet (v : JSVal) (s : DetachedState) : DetachedState :=
  { s with manualOverride := some v, hasManualOverride := true }

/-! ## Transport envelope encode/decode (command.svelte.ts lines 94-173)

`ConvexLoadResult` is a marker class; `encodeConvexLoad` recognizes it
with `value instanceof ConvexLoadResult` only. A value may carry the
`__convexLoad` marker structurally yet fail `instanceof` when it comes
from another realm (a separately loaded copy of the module), so the
universe of candidate values distinguishes the two. -/

/-- The fields of a `ConvexLoadResult` (command.svelte.ts lines 94-102),
marker aside: `refName`, canonical `args`, and the fetched `data`. -/
structure ConvexLoadResult where
  refName : String
  args : String
  data : JSVal
  deriving DecidableEq, Repr

/-- A candidate value offered to `encodeConvexLoad`:
`instanceOf r` — an actual instance of the locally loaded
`ConvexLoadResult` class; `foreignEnvelope r` — an object carrying the
`__convexLoad` marker fields but not an instance of the local class
(produced by an independent copy of the module); `other v` — any
non-envelope value. -/
inductive LoadValue where
  | instanceOf : ConvexLoadResult → LoadValue
  | foreignEnvelope : ConvexLoadResult → LoadValue
  | other : JSVal → LoadValue
  deriving DecidableEq, Repr

/-- The wire record `{ refName, args, data }` emitted by
`encodeConvexLoad`. -/
structure LoadEncoded where
  refName : String
  args : String
  data : JSVal
  deriving DecidableEq, Repr

/-- `encodeConvexLoad(value)` (lines 155-162): emit the wire record iff
`value instanceof ConvexLoadResult`; every other value — including one
that merely carries the `__convexLoad` marker — yields `false`
(modelled as `none`). -/
def encodeConvexLoad : LoadValue → Option LoadEncoded
  | .instanceOf r => some { refName := r.refName, args := r.args, data := r.data }
  | .foreignEnvelope _ => none
  | .other _ => none

/-- `makeFunctionReference(name)` from the convex client library: builds a
function reference holding exactly `name`, with no lookup in any registry
and no failure path; `getFunctionName` of the result is `name` again.
Modelled as the identity on the name. -/
def makeFunctionReference (name : String) : String := name

/-- `decodeConvexLoad(encoded)` (lines 164-173): rebuild the reference
from `refName` via `makeFunctionReference` and construct a detached view
seeded with the envelope's `data`. Total — there is no decode-time
failure path. -/
def decodeConvexLoad (env : ClientEnv) (e : LoadEncoded) : DetachedView :=
  createDetachedQuery env (makeFunctionReference e.refName) e.args (some e.data)

/-! ## User transport (user.svelte.ts)

A user record is a JS object: a list of own (key, value) fields, first
occurrence wins on lookup, with the `__convexUser` marker kept out of the
field list (the marker is a class field, handled separately in
`UserValue`). -/

/-- The own enumerable fields of a user object, marker excluded; property
access returns `undefined` (`none`) for an absent key. -/
def Rec : Type := List (String × JSVal)

instance : DecidableEq Rec := by
  unfold Rec
  infer_instance

/-- JS property read `obj[k]`. -/
def recGet (r : Rec) (k : String) : Option JSVal :=
  (r.find? (fun p => p.1 == k)).map (fun p => p.2)

/-- A candidate value offered to `encodeConvexUser`; as with `LoadValue`,
an envelope may be an instance of the locally loaded `ConvexUserResult`
class or a structural duplicate carrying the `__convexUser` marker from
another realm. The constructor `Object.assign`s the user fields onto the
instance, so both shapes carry the same field list beside the marker. -/
inductive UserValue where
  | instanceOf : Rec → UserValue
  | foreignEnvelope : Rec → UserValue
  | other : JSVal → UserValue
  deriving DecidableEq

/-- The wire record `{ data }` emitted by `encodeConvexUser`. -/
structure UserEncoded where
  data : Rec
  deriving DecidableEq

/-- `encodeConvexUser(value)` (user.svelte.ts lines 81-91): recognized via
`value instanceof ConvexUserResult || (value != null && typeof value ===
"object" && "__convexUser" in value)` — a duck-type check, so a foreign
envelope is encoded too; the rest-spread strips the `__convexUser` marker
and keeps every other own field. Non-envelopes yield `false` (`none`). -/
def encodeConvexUser : UserValue → Option UserEncoded
  | .instanceOf r => some { data := r }
  | .foreignEnvelope r => some { data := r }
  | .other _ => none

/-- The reactive state of a decoded user: the `current` `$state` cell
(user.svelte.ts line 109) plus the set of pushed results whose image
preload has not yet reached a terminal outcome (each pending `new Image()`
whose `onload`/`onerror` has not fired, line 123-129), and whether
`client.onUpdate` was called at decode time (line 113). -/
structure UserView where
  current : Rec
  pendingPreloads : List Rec
  subscribed : Bool
  deriving DecidableEq

/-- `decodeConvexUser(encoded, queryRef, args)` (lines 102-138): seed
`current` with the envelope's data and subscribe iff the client is not
disabled. -/
def decodeConvexUser (env : ClientEnv) (encoded : UserEncoded) : UserView :=
  { current := encoded.data
    pendingPreloads := []
    subscribed := !env.disabled }

/-- The push handler's gating test (line 121): `result.image &&
result.image !== current.image` — the incoming image is truthy and
strictly different from the displayed one. -/
def imageNeedsPreload (result current : Rec) : Bool :=
  truthy (recGet result "image") && recGet result "image" != recGet current "image"

/-- One `onUpdate` success push (lines 117-133). `none` models the `null`
"unauthenticated" result, which is ignored. A result whose image needs
preloading is parked until its `Image` preload fires; any other result
replaces `current` immediately. -/
def userPush (v : UserView) (result : Option Rec) : UserView :=
  match result with
  | none => v
  | some r =>
    if imageNeedsPreload r v.current then
      { v with pendingPreloads := r :: v.pendingPreloads }
    else
      { v with current := r }

/-- A pending preload reaching a terminal outcome: both `img.onload` and
`img.onerror` (lines 124-128) run the same assignment `current = result`,
so one event covers both. Fires only for a parked result; the parked copy
is then dropped. -/
def userPreloadDone (v : UserView) (r : Rec) : UserView :=
  if v.pendingPreloads.contains r then
    { current := r
      pendingPreloads := v.pendingPreloads.erase r
      subscribed := v.subscribed }
  else v

/-- An event observable by a decoded user view. `chanError` is the
`onUpdate` error callback (lines 134-136), which deliberately does
nothing. -/
inductive UserEvent where
  | push : Option Rec → UserEvent
  | preloadDone : Rec → UserEvent
  | chanError : String → UserEvent
  deriving DecidableEq

/-- Apply one event; channel pushes and errors reach the callbacks only
when the subscription was opened at decode time, and without a
subscription no preload was ever started either. -/
def userApplyEvent (v : UserView) : UserEvent → UserView
  | .push r => if v.subscribed then userPush v r else v
  | .preloadDone r => if v.subscribed then userPreloadDone v r else v
  | .chanError _ => v

/-- Apply a whole event sequence, oldest first. -/
def userApplyEvents (v : UserView) (es : List UserEvent) : UserView :=
  es.foldl userApplyEvent v

/-- The field names exposed by the proxy object `decodeConvexUser`
returns (lines 141-157): it has exactly the getters `id`, `email`,
`name`, `image`, `isAnonymous`. -/
def userProxyFields : List String := ["id", "email", "name", "image", "isAnonymous"]

/-- Property read on the returned proxy: one of the five getters reads
the field from the reactive `current`; any other key is simply not a
property of the returned object, so it reads as `undefined`. -/
def userProxyGet (v : UserView) (k : String) : Option JSVal :=
  if userProxyFields.contains k then recGet v.current k else none

/-! ## Theorems -/

/-- C1, counterexample: a `convexQuery` view whose args have switched to
the skip sentinel after `set(7)` was called still reports `data = 7`
through the unguarded `data` getter — the claim's `data = undefined`
fails. The state is reached from the initial state by `set(7)` followed
by the two `$effect` bodies rerunning on the args change to skip. -/
theorem C1_skip_counterexample :
    isSkipped .skip = true ∧
    (argsChangeEffect ⟨none, false⟩ (.args "X") .skip
        (effectRun .skip (setValue (.vnum 7)
          (initQueryState ⟨none, false⟩)))).hasManualOverride = true ∧
    dataGet ⟨true, fun _ => none⟩ ⟨none, false⟩
      (argsChangeEffect ⟨none, false⟩ (.args "X") .skip
        (effectRun .skip (setValue (.vnum 7)
          (initQueryState ⟨none, false⟩)))) .skip = some (.vnum 7) := by
  refine ⟨rfl, rfl, rfl⟩

/-- C1, amended: a skipped view always reports `loading = false` and
`isStale = false`; but `data = undefined` and `error = undefined` hold
only in the absence of a manual override and of a retained previous
result under `keepPreviousData` — the `data`/`error` getters have no skip
guard, so an installed override or a retained last result is still
shown. -/
theorem C1_skip_view_amended (env : ClientEnv) (opts : QueryOptions) (s : QueryState) :
    (loadingGet env opts s .skip = false ∧ isStaleGet env opts s .skip = false) ∧
    (s.hasManualOverride = false → staleAllowed opts s = false →
      dataGet env opts s .skip = none ∧ errorGet env opts s .skip = none) := by
  constructor
  · constructor
    · simp [loadingGet, isSkipped]
    · simp [isStaleGet, isSkipped]
  · intro h1 h2
    have hres : resolvedResult env opts s .skip = none := by
      simp [resolvedResult, syncResult, h1, h2]
    constructor
    · simp [dataGet, dataDerived, hres, isErrorVal]
    · simp [errorGet, errorDerived, hres, isErrorVal]

/-- C1, witness for the amended theorem at the initial state of an
option-less query. -/
theorem C1_skip_view_amended_witness :
    ((initQueryState ⟨none, false⟩).hasManualOverride = false) ∧
    (staleAllowed ⟨none, false⟩ (initQueryState ⟨none, false⟩) = false) ∧
    (dataGet ⟨true, fun _ => none⟩ ⟨none, false⟩ (initQueryState ⟨none, false⟩) .skip = none ∧
     errorGet ⟨true, fun _ => none⟩ ⟨none, false⟩ (initQueryState ⟨none, false⟩) .skip = none) :=
  ⟨rfl, rfl,
    (C1_skip_view_amended ⟨true, fun _ => none⟩ ⟨none, false⟩
      (initQueryState ⟨none, false⟩)).2 rfl rfl⟩

/-- C2: `set(O)` unconditionally installs `O` as the displayed value —
`data = O` under any client cache and any prior state — and the next
channel delivery for the active args, success or error alike, clears the
override, after which the view shows the delivered value (the client's
synchronous cache then holds it: `envS`/`envE` describe the cache right
after the respective delivery). -/
theorem C2_override_set_and_clear (s : QueryState) (opts : QueryOptions)
    (a : String) (v w : JSVal) (m : String) (envS envE : ClientEnv)
    (hv : isErrorVal (some v) = false)
    (hw : isErrorVal (some w) = false)
    (hS1 : envS.disabled = false) (hS2 : envS.localQueryResult a = some w)
    (hE1 : envE.disabled = false) (hE2 : envE.localQueryResult a = some (.verr m)) :
    (∀ env : ClientEnv, dataGet env opts (setValue v s) (.args a) = some v) ∧
    ((onDataCallback a w (setValue v s)).hasManualOverride = false ∧
      dataGet envS opts (onDataCallback a w (setValue v s)) (.args a) = some w) ∧
    ((onErrorCallback a m (setValue v s)).hasManualOverride = false ∧
      errorGet envE opts (onErrorCallback a m (setValue v s)) (.args a) = some (.verr m) ∧
      dataGet envE opts (onErrorCallback a m (setValue v s)) (.args a) = none) := by
  refine ⟨?_, ⟨rfl, ?_⟩, ⟨rfl, ?_, ?_⟩⟩
  · intro env
    simp [dataGet, dataDerived, resolvedResult, setValue, hv]
  · have hres : resolvedResult envS opts (onDataCallback a w (setValue v s)) (.args a)
        = some w := by
      simp only [resolvedResult, onDataCallback, setValue, syncResult]
      by_cases hshort : truthy opts.initialData && !s.haveArgsEverChanged
      · simp [hshort]
      · simp [hshort, hS1, hS2]
    simp [dataGet, dataDerived, hres, hw]
  · have hres : resolvedResult envE opts (onErrorCallback a m (setValue v s)) (.args a)
        = some (.verr m) := by
      simp only [resolvedResult, onErrorCallback, setValue, syncResult]
      by_cases hshort : truthy opts.initialData && !s.haveArgsEverChanged
      · simp [hshort]
      · simp [hshort, hE1, hE2]
    simp [errorGet, errorDerived, hres, isErrorVal]
  · have hres : resolvedResult envE opts (onErrorCallback a m (setValue v s)) (.args a)
        = some (.verr m) := by
      simp only [resolvedResult, onErrorCallback, setValue, syncResult]
      by_cases hshort : truthy opts.initialData && !s.haveArgsEverChanged
      · simp [hshort]
      · simp [hshort, hE1, hE2]
    simp [dataGet, dataDerived, hres, isErrorVal]

/-- C2, witness: a fresh view, `set(1)`, then a success delivery of `2`
and, alternatively, an error delivery of "boom". -/
theorem C2_override_set_and_clear_witness :
    (isErrorVal (some (.vnum 1)) = false) ∧
    (isErrorVal (some (.vnum 2)) = false) ∧
    ((∀ env : ClientEnv,
        dataGet env ⟨none, false⟩ (setValue (.vnum 1) (initQueryState ⟨none, false⟩))
          (.args "{}") = some (.vnum 1)) ∧
     ((onDataCallback "{}" (.vnum 2)
          (setValue (.vnum 1) (initQueryState ⟨none, false⟩))).hasManualOverride = false ∧
       dataGet ⟨false, fun _ => some (.vnum 2)⟩ ⟨none, false⟩
         (onDataCallback "{}" (.vnum 2)
           (setValue (.vnum 1) (initQueryState ⟨none, false⟩))) (.args "{}")
         = some (.vnum 2)) ∧
     ((onErrorCallback "{}" "boom"
          (setValue (.vnum 1) (initQueryState ⟨none, false⟩))).hasManualOverride = false ∧
       errorGet ⟨false, fun _ => some (.verr "boom")⟩ ⟨none, false⟩
         (onErrorCallback "{}" "boom"
           (setValue (.vnum 1) (initQueryState ⟨none, false⟩))) (.args "{}")
         = some (.verr "boom") ∧
       dataGet ⟨false, fun _ => some (.verr "boom")⟩ ⟨none, false⟩
         (onErrorCallback "{}" "boom"
           (setValue (.vnum 1) (initQueryState ⟨none, false⟩))) (.args "{}")
         = none)) :=
  ⟨rfl, rfl,
    C2_override_set_and_clear (initQueryState ⟨none, false⟩) ⟨none, false⟩
      "{}" (.vnum 1) (.vnum 2) "boom"
      ⟨false, fun _ => some (.vnum 2)⟩ ⟨false, fun _ => some (.verr "boom")⟩
      rfl rfl rfl rfl rfl rfl⟩

/-- C3, counterexample: on a detached view, a success delivery followed
by an error delivery leaves `data = 1` and `error = Error("disconnected")`
simultaneously — the detached callbacks never clear the opposite cell, so
the claimed mutual exclusion fails for detached views. -/
theorem C3_detached_both_defined_counterexample :
    detachedDataGet (detachedDeliverAll
      (createDetachedQuery ⟨false, fun _ => none⟩ "tasks.get" "{}" none)
      [.success (.vnum 1), .failure "disconnected"]).st = some (.vnum 1) ∧
    detachedErrorGet (detachedDeliverAll
      (createDetachedQuery ⟨false, fun _ => none⟩ "tasks.get" "{}" none)
      [.success (.vnum 1), .failure "disconnected"]).st = some (.verr "disconnected") :=
  ⟨rfl, rfl⟩

/-- C3, amended: for `convexQuery` views the exclusion does hold — in
every state, over any client cache, at most one of the `data` and `error`
getters is non-undefined, because both are carved out of the single
resolved result by the `instanceof Error` test. Detached views keep
`data` and `error` in separate cells that are never mutually cleared, so
there a success followed by an error leaves both defined. -/
theorem C3_query_data_error_exclusive (env : ClientEnv) (opts : QueryOptions)
    (s : QueryState) (cur : ArgsVal) :
    dataGet env opts s cur = none ∨ errorGet env opts s cur = none := by
  by_cases h : isErrorVal (resolvedResult env opts s cur)
  · left
    simp [dataGet, dataDerived, h]
  · right
    simp [errorGet, errorDerived, h]

/-- C4: encoding a `ConvexLoadResult` instance and decoding the wire
record reconstructs a detached view whose reference name and args match
the envelope and whose initial displayed `data` — before any channel
callback, with no override installed — is the envelope's data, with no
error. -/
theorem C4_encode_decode_roundtrip (env : ClientEnv) (r : ConvexLoadResult) :
    encodeConvexLoad (.instanceOf r)
      = some { refName := r.refName, args := r.args, data := r.data } ∧
    (decodeConvexLoad env { refName := r.refName, args := r.args, data := r.data }).refName
      = r.refName ∧
    (decodeConvexLoad env { refName := r.refName, args := r.args, data := r.data }).args
      = r.args ∧
    detachedDataGet (decodeConvexLoad env
      { refName := r.refName, args := r.args, data := r.data }).st = some r.data ∧
    detachedErrorGet (decodeConvexLoad env
      { refName := r.refName, args := r.args, data := r.data }).st = none :=
  ⟨rfl, rfl, rfl, rfl, rfl⟩

/-- A detached view whose subscription was never opened is unchanged by
any sequence of channel events. -/
theorem detachedDeliverAll_unsubscribed (v : DetachedView) (es : List ChanEvent)
    (h : v.subscribed = false) : detachedDeliverAll v es = v := by
  induction es with
  | nil => rfl
  | cons e es ih =>
    have hstep : detachedDeliver v e = v := by
      simp [detachedDeliver, h]
    simpa [detachedDeliverAll, hstep] using ih

/-- A decoded user view whose subscription was never opened is unchanged
by any sequence of events. -/
theorem userApplyEvents_unsubscribed (v : UserView) (es : List UserEvent)
    (h : v.subscribed = false) : userApplyEvents v es = v := by
  induction es with
  | nil => rfl
  | cons e es ih =>
    have hstep : userApplyEvent v e = v := by
      cases e <;> simp [userApplyEvent, h]
    simpa [userApplyEvents, hstep] using ih

/-- C5: when the client's `disabled` flag is true, neither
`createDetachedQuery` (hence `decodeConvexLoad`) nor `decodeConvexUser`
opens a subscription, and no sequence of channel events ever changes the
decoded state: the envelope's seeded `data` stays displayed, `error`
stays undefined, and the decoded user keeps showing the seed. -/
theorem C5_disabled_decode_inert (env : ClientEnv) (e : LoadEncoded)
    (u : UserEncoded) (es : List ChanEvent) (us : List UserEvent)
    (hd : env.disabled = true) :
    (decodeConvexLoad env e).subscribed = false ∧
    detachedDeliverAll (decodeConvexLoad env e) es = decodeConvexLoad env e ∧
    detachedDataGet (detachedDeliverAll (decodeConvexLoad env e) es).st = some e.data ∧
    detachedErrorGet (detachedDeliverAll (decodeConvexLoad env e) es).st = none ∧
    (decodeConvexUser env u).subscribed = false ∧
    userApplyEvents (decodeConvexUser env u) us = decodeConvexUser env u ∧
    (userApplyEvents (decodeConvexUser env u) us).current = u.data := by
  have hq : (decodeConvexLoad env e).subscribed = false := by
    simp [decodeConvexLoad, createDetachedQuery, hd]
  have hu : (decodeConvexUser env u).subscribed = false := by
    simp [decodeConvexUser, hd]
  have hqa := detachedDeliverAll_unsubscribed (decodeConvexLoad env e) es hq
  have hua := userApplyEvents_unsubscribed (decodeConvexUser env u) us hu
  refine ⟨hq, hqa, ?_, ?_, hu, hua, ?_⟩
  · rw [hqa]
    rfl
  · rw [hqa]
    rfl
  · rw [hua]
    rfl

/-- C5, witness: the spec's scenario — envelope for "tasks.get" decoded
with a disabled client, plus a user seed, each offered a delivery that
must not land. -/
theorem C5_disabled_decode_inert_witness :
    ((⟨true, fun _ => none⟩ : ClientEnv).disabled = true) ∧
    ((decodeConvexLoad ⟨true, fun _ => none⟩ ⟨"tasks.get", "{}", .vstr "a"⟩).subscribed = false ∧
     detachedDeliverAll (decodeConvexLoad ⟨true, fun _ => none⟩ ⟨"tasks.get", "{}", .vstr "a"⟩)
        [.success (.vnum 9)]
        = decodeConvexLoad ⟨true, fun _ => none⟩ ⟨"tasks.get", "{}", .vstr "a"⟩ ∧
     detachedDataGet (detachedDeliverAll
        (decodeConvexLoad ⟨true, fun _ => none⟩ ⟨"tasks.get", "{}", .vstr "a"⟩)
        [.success (.vnum 9)]).st = some (.vstr "a") ∧
     detachedErrorGet (detachedDeliverAll
        (decodeConvexLoad ⟨true, fun _ => none⟩ ⟨"tasks.get", "{}", .vstr "a"⟩)
        [.success (.vnum 9)]).st = none ∧
     (decodeConvexUser ⟨true, fun _ => none⟩ ⟨[("id", .vstr "u1")]⟩).subscribed = false ∧
     userApplyEvents (decodeConvexUser ⟨true, fun _ => none⟩ ⟨[("id", .vstr "u1")]⟩)
        [.push (some [("id", .vstr "u2")])]
        = decodeConvexUser ⟨true, fun _ => none⟩ ⟨[("id", .vstr "u1")]⟩ ∧
     (userApplyEvents (decodeConvexUser ⟨true, fun _ => none⟩ ⟨[("id", .vstr "u1")]⟩)
        [.push (some [("id", .vstr "u2")])]).current = [("id", .vstr "u1")]) :=
  ⟨rfl,
    C5_disabled_decode_inert ⟨true, fun _ => none⟩ ⟨"tasks.get", "{}", .vstr "a"⟩
      ⟨[("id", .vstr "u1")]⟩ [.success (.vnum 9)] [.push (some [("id", .vstr "u2")])] rfl⟩

/-- C6: pushes delivered to a decoded user view. A `null` result is
ignored; a result whose image is present (truthy) and differs from the
displayed one leaves the displayed user unchanged and parks the result
until its preload reaches a terminal outcome (`onload` and `onerror` run
the same swap, modelled by one `preloadDone` event), after which the
whole result becomes the displayed user; any other result becomes the
displayed user immediately. -/
theorem C6_push_swap_gating (v : UserView) (r : Rec) (hs : v.subscribed = true) :
    (userApplyEvent v (.push none) = v) ∧
    (imageNeedsPreload r v.current = true →
      (userApplyEvent v (.push (some r))).current = v.current ∧
      (userApplyEvent v (.push (some r))).pendingPreloads.contains r = true ∧
      (userApplyEvent (userApplyEvent v (.push (some r))) (.preloadDone r)).current = r) ∧
    (imageNeedsPreload r v.current = false →
      (userApplyEvent v (.push (some r))).current = r) := by
  refine ⟨?_, ?_, ?_⟩
  · simp [userApplyEvent, hs, userPush]
  · intro hgate
    have hpush : userApplyEvent v (.push (some r))
        = { v with pendingPreloads := r :: v.pendingPreloads } := by
      simp [userApplyEvent, hs, userPush, hgate]
    refine ⟨?_, ?_, ?_⟩
    · rw [hpush]
    · rw [hpush]
      simp [List.contains_cons]
    · rw [hpush]
      simp [userApplyEvent, hs, userPreloadDone, List.contains_cons]
  · intro hgate
    simp [userApplyEvent, hs, userPush, hgate]

/-- C6, witness: the spec's scenario — seed `{id:"u1", image:null}`, live
push `{id:"u1", image:"http://x/img.png"}` deferred until the preload
fires, plus an ignored `null` push. -/
theorem C6_push_swap_gating_witness :
    ((⟨[("id", .vstr "u1"), ("image", .vnull)], [], true⟩ : UserView).subscribed = true) ∧
    (imageNeedsPreload [("id", .vstr "u1"), ("image", .vstr "http://x/img.png")]
      (⟨[("id", .vstr "u1"), ("image", .vnull)], [], true⟩ : UserView).current = true) ∧
    (userApplyEvent ⟨[("id", .vstr "u1"), ("image", .vnull)], [], true⟩ (.push none)
      = ⟨[("id", .vstr "u1"), ("image", .vnull)], [], true⟩) ∧
    ((userApplyEvent ⟨[("id", .vstr "u1"), ("image", .vnull)], [], true⟩
        (.push (some [("id", .vstr "u1"), ("image", .vstr "http://x/img.png")]))).current
      = [("id", .vstr "u1"), ("image", .vnull)]) ∧
    ((userApplyEvent (userApplyEvent ⟨[("id", .vstr "u1"), ("image", .vnull)], [], true⟩
        (.push (some [("id", .vstr "u1"), ("image", .vstr "http://x/img.png")])))
        (.preloadDone [("id", .vstr "u1"), ("image", .vstr "http://x/img.png")])).current
      = [("id", .vstr "u1"), ("image", .vstr "http://x/img.png")]) :=
  ⟨rfl, rfl,
    (C6_push_swap_gating ⟨[("id", .vstr "u1"), ("image", .vnull)], [], true⟩
      [("id", .vstr "u1"), ("image", .vstr "http://x/img.png")] rfl).1,
    ((C6_push_swap_gating ⟨[("id", .vstr "u1"), ("image", .vnull)], [], true⟩
      [("id", .vstr "u1"), ("image", .vstr "http://x/img.png")] rfl).2.1 rfl).1,
    ((C6_push_swap_gating ⟨[("id", .vstr "u1"), ("image", .vnull)], [], true⟩
      [("id", .vstr "u1"), ("image", .vstr "http://x/img.png")] rfl).2.1 rfl).2.2⟩

/-- C7, counterexample: with `keepPreviousData` on, a result for args "A"
retained, args switched to "B" (not yet resolved) and then `set(5)`
called, the view shows the manual override (`data = 5`) yet reports
`isStale = true` — the `isStale` condition only requires a non-undefined
resolved result, not that the shown value is the retained fallback, so
the claim's "isStale is false when a manual override is shown" fails. -/
theorem C7_stale_with_override_counterexample :
    (setValue (.vnum 5) (onDataCallback "A" (.vnum 1)
      (initQueryState ⟨none, true⟩))).hasManualOverride = true ∧
    dataGet ⟨false, fun _ => none⟩ ⟨none, true⟩
      (setValue (.vnum 5) (onDataCallback "A" (.vnum 1)
        (initQueryState ⟨none, true⟩))) (.args "B") = some (.vnum 5) ∧
    isStaleGet ⟨false, fun _ => none⟩ ⟨none, true⟩
      (setValue (.vnum 5) (onDataCallback "A" (.vnum 1)
        (initQueryState ⟨none, true⟩))) (.args "B") = true :=
  ⟨rfl, rfl, rfl⟩

/-- C7, amended: `isStale` is true iff the view is not skipped, no sync
result is available, `keepPreviousData` is on with a truthy retained
result, the current args differ from the last result's args, and the
resolved value is non-undefined. When no manual override is installed
this coincides with the claim — the shown value is then exactly the
retained `lastResult` — but an installed override also satisfies it, so
`isStale` can be true while the override is what is shown. -/
theorem C7_isStale_characterization (env : ClientEnv) (opts : QueryOptions)
    (s : QueryState) (cur : ArgsVal) (h : s.hasManualOverride = false) :
    isStaleGet env opts s cur = true ↔
      (isSkipped cur = false ∧ syncResult env opts s cur = none ∧
       staleAllowed opts s = true ∧ sameArgsAsLastResult s cur = false ∧
       resolvedResult env opts s cur = s.lastResult ∧ s.lastResult ≠ none) := by
  constructor
  · intro hst
    have hst' : isStaleDerived env opts s cur = true ∧ isSkipped cur = false := by
      by_cases hsk : isSkipped cur
      · rw [isStaleGet, if_pos hsk] at hst
        exact absurd hst (by simp)
      · rw [isStaleGet, if_neg hsk] at hst
        exact ⟨hst, by simpa using hsk⟩
    obtain ⟨hd, hsk⟩ := hst'
    rw [isStaleDerived] at hd
    simp only [Bool.and_eq_true, bne_iff_ne, ne_eq, Bool.not_eq_true',
      beq_iff_eq] at hd
    obtain ⟨⟨⟨⟨_, hsync⟩, hstale⟩, hsame⟩, hres⟩ := hd
    have hresval : resolvedResult env opts s cur = s.lastResult := by
      rw [resolvedResult, if_neg (by simp [h]), hsync, if_pos hstale]
    refine ⟨hsk, hsync, hstale, hsame, hresval, ?_⟩
    intro hlast
    exact hres (by rw [hresval, hlast])
  · rintro ⟨hsk, hsync, hstale, hsame, hresval, hlast⟩
    have hcur : cur ≠ ArgsVal.skip := by simpa [isSkipped] using hsk
    rw [isStaleGet, if_neg (by simp [hsk])]
    rw [isStaleDerived]
    cases hl : s.lastResult with
    | none => exact absurd hl hlast
    | some x => simp [hsk, hsync, hstale, hsame, hresval, hl, hcur]

/-- C7, witness for the amended characterization: `keepPreviousData` on,
result 1 retained for args "A", args now "B", no override — `isStale`
is true and the fallback is shown. -/
theorem C7_isStale_characterization_witness :
    ((onDataCallback "A" (.vnum 1)
        (initQueryState ⟨none, true⟩)).hasManualOverride = false) ∧
    (isStaleGet ⟨false, fun _ => none⟩ ⟨none, true⟩
        (onDataCallback "A" (.vnum 1) (initQueryState ⟨none, true⟩)) (.args "B") = true ↔
      (isSkipped (.args "B") = false ∧
       syncResult ⟨false, fun _ => none⟩ ⟨none, true⟩
         (onDataCallback "A" (.vnum 1) (initQueryState ⟨none, true⟩)) (.args "B") = none ∧
       staleAllowed ⟨none, true⟩
         (onDataCallback "A" (.vnum 1) (initQueryState ⟨none, true⟩)) = true ∧
       sameArgsAsLastResult
         (onDataCallback "A" (.vnum 1) (initQueryState ⟨none, true⟩)) (.args "B") = false ∧
       resolvedResult ⟨false, fun _ => none⟩ ⟨none, true⟩
         (onDataCallback "A" (.vnum 1) (initQueryState ⟨none, true⟩)) (.args "B")
         = (onDataCallback "A" (.vnum 1) (initQueryState ⟨none, true⟩)).lastResult ∧
       (onDataCallback "A" (.vnum 1) (initQueryState ⟨none, true⟩)).lastResult ≠ none)) :=
  ⟨rfl,
    C7_isStale_characterization ⟨false, fun _ => none⟩ ⟨none, true⟩
      (onDataCallback "A" (.vnum 1) (initQueryState ⟨none, true⟩)) (.args "B") rfl⟩

/-- C8, counterexample: decoding an envelope whose `refName`
("nonexistent.query") maps to no query function in the consuming realm
does not fail — `makeFunctionReference` builds a reference straight from
the string with no registry lookup, so `decodeConvexLoad` returns a
fully constructed, subscribed view seeded with the envelope's data
instead of throwing at decode time. -/
theorem C8_unknown_refName_counterexample :
    decodeConvexLoad ⟨false, fun _ => none⟩ ⟨"nonexistent.query", "{}", .vstr "a"⟩ =
      { refName := "nonexistent.query", args := "{}",
        st := { data := some (.vstr "a"), error := none,
                manualOverride := none, hasManualOverride := false },
        subscribed := true } :=
  rfl

/-- C8, amended: `decodeConvexLoad` is total — for every envelope,
whatever its `refName`, it returns the detached view for exactly that
name and args, seeded with the envelope's data; an unresolvable name is
never detected at decode time (it can only surface later through the
subscription's error callback). -/
theorem C8_decode_total (env : ClientEnv) (e : LoadEncoded) :
    decodeConvexLoad env e =
      { refName := e.refName, args := e.args,
        st := { data := some e.data, error := none,
                manualOverride := none, hasManualOverride := false },
        subscribed := !env.disabled } :=
  rfl

/-- C9, counterexample: an object carrying the `__convexLoad` marker
fields but produced by an independently loaded copy of the module (not an
instance of the local `ConvexLoadResult` class) is not encoded —
`encodeConvexLoad` tests only `instanceof` and returns `false`, against
the claim that any marker-carrying object is encoded. -/
theorem C9_load_encode_counterexample :
    encodeConvexLoad (.foreignEnvelope ⟨"tasks.get", "{}", .vstr "a"⟩) = none :=
  rfl

/-- C9, amended: `encodeConvexUser` does recognize envelopes structurally
(`instanceof` or the `__convexUser` marker), emitting `{ data }` with the
marker stripped, and rejects non-envelopes; `encodeConvexLoad`, however,
recognizes only true `ConvexLoadResult` instances via `instanceof` — a
marker-carrying object from another realm is rejected like any
non-envelope. -/
theorem C9_encode_recognition (r : Rec) (q : ConvexLoadResult) (v : JSVal) :
    encodeConvexUser (.instanceOf r) = some ⟨r⟩ ∧
    encodeConvexUser (.foreignEnvelope r) = some ⟨r⟩ ∧
    encodeConvexUser (.other v) = none ∧
    encodeConvexLoad (.instanceOf q) = some ⟨q.refName, q.args, q.data⟩ ∧
    encodeConvexLoad (.foreignEnvelope q) = none ∧
    encodeConvexLoad (.other v) = none :=
  ⟨rfl, rfl, rfl, rfl, rfl, rfl⟩

/-- C10: the object returned by `decodeConvexUser` exposes exactly the
getters `id`, `email`, `name`, `image`, `isAnonymous`: reading any of
those keys yields the corresponding field of the current (seeded or
pushed) user record, and reading any other key yields `undefined` no
matter what fields the record carries — even though `encodeConvexUser`
serializes every field of the wrapped user object except the marker. -/
theorem C10_user_proxy_shape (v : UserView) (k : String) (r : Rec) :
    (userProxyFields.contains k = true → userProxyGet v k = recGet v.current k) ∧
    (userProxyFields.contains k = false → userProxyGet v k = none) ∧
    encodeConvexUser (.instanceOf r) = some ⟨r⟩ := by
  refine ⟨?_, ?_, rfl⟩
  · intro hk
    unfold userProxyGet
    rw [hk]
    rfl
  · intro hk
    unfold userProxyGet
    rw [hk]
    rfl

/-- C10, witness: a user record carrying an extra "role" field — the
proxy reads "role" as `undefined` while "email" comes through, and the
encoder keeps every field. -/
theorem C10_user_proxy_shape_witness :
    (userProxyFields.contains "role" = false) ∧
    (userProxyGet ⟨[("email", .vstr "e@x"), ("role", .vstr "admin")], [], true⟩ "role"
      = none) ∧
    (userProxyFields.contains "email" = true) ∧
    (userProxyGet ⟨[("email", .vstr "e@x"), ("role", .vstr "admin")], [], true⟩ "email"
      = recGet [("email", .vstr "e@x"), ("role", .vstr "admin")] "email") ∧
    encodeConvexUser (.instanceOf [("email", .vstr "e@x"), ("role", .vstr "admin")])
      = some ⟨[("email", .vstr "e@x"), ("role", .vstr "admin")]⟩ :=
  ⟨rfl,
    (C10_user_proxy_shape ⟨[("email", .vstr "e@x"), ("role", .vstr "admin")], [], true⟩
      "role" [("email", .vstr "e@x"), ("role", .vstr "admin")]).2.1 rfl,
    rfl,
    (C10_user_proxy_shape ⟨[("email", .vstr "e@x"), ("role", .vstr "admin")], [], true⟩
      "email" [("email", .vstr "e@x"), ("role", .vstr "admin")]).1 rfl,
    (C10_user_proxy_shape ⟨[("email", .vstr "e@x"), ("role", .vstr "admin")], [], true⟩
      "email" [("email", .vstr "e@x"), ("role", .vstr "admin")]).2.2⟩

end ConvexSvelteKit
